import Mathlib

/-!
Shallow embedding of the GS-Drenna read-gateway (src/backend/app/main.py).

The application exposes one endpoint, GET /tabela/{nome_tabela}, handled by
the coroutine listar_tabela.  A FastAPI dependency, get_db_connection,
acquires a connection from a process-wide Oracle pool before the handler body
runs and releases it in a finally block on every exit path.  The handler
upper-cases the path parameter, checks it against the static whitelist
tabelas_permitidas, executes a full-table scan, and projects the fetched rows
into a list of string-keyed records, materialising LOB columns.

The external world (the Oracle driver, the pool, the database) is modelled by
the World structure: each field records the outcome of one external call the
request makes.  The request handler becomes a pure function from the world and
the path parameter to a response together with the trace of pool and query
events it performs.  Python dict construction is modelled faithfully
(in-place update of an existing key, append of a fresh one), and the Python
bytes.decode call for utf-8 is modelled by an explicit decoder parameter
because its implementation is external to the repository.
-/

namespace DrennaAPI

/-- Primitive (non-LOB) database values pass through the projection
unchanged; the handler only inspects values that carry a read method. -/
inductive Prim where
  | pbool (b : Bool)
  | pint (i : Int)
  | pstr (s : String)
  deriving DecidableEq, Repr

/-- Outcome of calling read on a LOB handle: the call can raise, return
text (CLOB) or return raw bytes (BLOB).  Bytes are modelled as List Nat. -/
inductive LobRead where
  | fails (msg : String)
  | text (s : String)
  | bin (bs : List Nat)
  deriving DecidableEq, Repr

/-- Raw cell value as fetched from the cursor: SQL NULL, a LOB handle
(anything with a read attribute), or a plain value. -/
inductive RawVal where
  | vnull
  | lob (r : LobRead)
  | plain (p : Prim)
  deriving DecidableEq, Repr

/-- Value stored in an output record after projection. -/
inductive OutVal where
  | vnull
  | vstr (s : String)
  | vbytes (bs : List Nat)
  | vplain (p : Prim)
  deriving DecidableEq, Repr

/-- A record (one Python dict linha): insertion-ordered association list. -/
abbrev Record := List (String × OutVal)

/-- Key list of a record, in insertion order. -/
def keys (r : Record) : List String := r.map Prod.fst

/-- Python dict assignment linha[col] = val: updating an existing key keeps
its position, a fresh key is appended at the end. -/
def dictInsert (r : Record) (k : String) (v : OutVal) : Record :=
  if k ∈ keys r then
    r.map (fun p => if p.1 = k then (k, v) else p)
  else
    r ++ [(k, v)]

/-- Projection of one raw cell value, following the body of the row loop in
listar_tabela.  A SQL NULL is left as-is (the hasattr guard requires the
value to be non-None).  For a LOB handle the handler calls read inside a
try: a raised read error degrades the value to None; a text result is kept;
a bytes result is decoded with dec (the external utf-8 decoder, returning
none on UnicodeDecodeError) and kept as raw bytes when decoding fails. -/
def projectVal (dec : List Nat → Option String) : RawVal → OutVal
  | RawVal.vnull => OutVal.vnull
  | RawVal.plain p => OutVal.vplain p
  | RawVal.lob (LobRead.fails _) => OutVal.vnull
  | RawVal.lob (LobRead.text s) => OutVal.vstr s
  | RawVal.lob (LobRead.bin bs) =>
      match dec bs with
      | some s => OutVal.vstr s
      | none => OutVal.vbytes bs

/-- Construction of one linha: for col, val in zip(colunas, row):
linha[col] = projected val, starting from the empty dict. -/
def mkLinha (dec : List Nat → Option String) (colunas : List String)
    (row : List RawVal) : Record :=
  (colunas.zip row).foldl (fun r p => dictInsert r p.1 (projectVal dec p.2)) []

/-- Events observable on the pool and the cursor during one request. -/
inductive Ev where
  | acquire
  | release
  | executeQuery (sql : String)
  deriving DecidableEq, Repr

/-- Response of one request: a JSON body (list of records) or an
HTTPException with status code and detail string. -/
inductive Response where
  | ok (dados : List Record)
  | err (status : Nat) (detail : String)
  deriving DecidableEq, Repr

/-- The pool object created by oracledb.create_pool in startup_db_pool,
with the configured bounds min=1, max=5. -/
structure Pool where
  minSize : Nat
  maxSize : Nat
  deriving DecidableEq, Repr

/-- Configured pool: create_pool is called with min=1, max=5. -/
def poolConfig : Pool := ⟨1, 5⟩

/-- Startup hook startup_db_pool: the create_pool attempt is wrapped in a
try / except that only prints on failure, so a failed initialisation leaves
the global db_pool at None instead of crashing the process. -/
def startup_db_pool (attempt : Except String Pool) : Option Pool :=
  match attempt with
  | Except.ok p => some p
  | Except.error _ => none

/-- Outcomes of the external calls made while serving one request. -/
structure World where
  /-- global db_pool: none when startup failed (or never ran). -/
  pool : Option Pool
  /-- result of db_pool.acquire (run in a thread). -/
  acquire : Except String Unit
  /-- result of connection.cursor (run in a thread). -/
  cursor : Except String Unit
  /-- result of cursor.execute on the scan query (run in a thread). -/
  exec : Except String Unit
  /-- cursor.description, reduced to the column name list col[0];
  none models a missing description. -/
  description : Option (List String)
  /-- rows returned by cursor.fetchall. -/
  rows : List (List RawVal)

/-- Dependency get_db_connection: raises 500 when db_pool is None, raises
500 when acquire fails (both wrapped by its own except clause, which
prefixes the str of the caught exception), otherwise yields the connection
to the body and releases it in the finally block on every exit path. -/
def get_db_connection (w : World) (body : Unit → Response × List Ev) :
    Response × List Ev :=
  match w.pool with
  | none =>
      (Response.err 500
        "Erro interno ao conectar ao banco de dados: 500: Database connection pool not initialized.",
       [])
  | some _ =>
      match w.acquire with
      | Except.error e =>
          (Response.err 500 ("Erro interno ao conectar ao banco de dados: " ++ e), [])
      | Except.ok c =>
          let r := body c
          (r.1, Ev.acquire :: (r.2 ++ [Ev.release]))

/-- Model of the Python str.upper call on the path parameter: every
character is upper-cased (ASCII case mapping, which is exact for the
identifiers the whitelist can match). -/
def pyUpper (s : String) : String := String.mk (s.data.map Char.toUpper)

/-- Static whitelist of readable tables. -/
def tabelas_permitidas : List String :=
  ["GS_CIDADE", "GS_BAIRRO", "GS_PREVISAO_TEMPO", "GS_FAMILIARES_DESAPARECIDOS",
   "GS_NIVEL_ALERTA"]

/-- Body of listar_tabela, given that a connection is available.  The name is
upper-cased, checked against the whitelist (403 on rejection, before any
cursor or query work).  A cursor-creation failure is caught by the outer
except and mapped to 500.  A failure while executing the query is caught by
the inner except, which raises HTTPException 400 with the table name in the
detail; that exception propagates into the outer except clause (HTTPException
is an Exception), which wraps its str, namely status colon space detail, into
a fresh 500.  On success the column names are read once from the description
(empty list when the description is absent), the rows are fetched and each is
projected into a dict. -/
def listar_tabela_body (dec : List Nat → Option String) (w : World)
    (nome_tabela : String) : Response × List Ev :=
  let nome := pyUpper nome_tabela
  if nome ∉ tabelas_permitidas then
    (Response.err 403 "Tabela não permitida", [])
  else
    match w.cursor with
    | Except.error e => (Response.err 500 ("Erro interno no servidor: " ++ e), [])
    | Except.ok _ =>
        match w.exec with
        | Except.error e =>
            (Response.err 500
              ("Erro interno no servidor: " ++
                ("400: Erro ao acessar dados da tabela " ++ nome ++ ": " ++ e)),
             [Ev.executeQuery ("SELECT * FROM " ++ nome)])
        | Except.ok _ =>
            let colunas := (w.description).getD []
            (Response.ok (w.rows.map (mkLinha dec colunas)),
             [Ev.executeQuery ("SELECT * FROM " ++ nome)])

/-- Full request: the dependency acquires the connection first (FastAPI
resolves Depends before the handler body runs), then the handler body runs,
then the dependency releases the connection. -/
def listar_tabela (dec : List Nat → Option String) (w : World)
    (nome_tabela : String) : Response × List Ev :=
  get_db_connection w (fun _ => listar_tabela_body dec w nome_tabela)

/-! ### Helper lemmas about the dict model -/

lemma keys_dictInsert_mem (r : Record) (k : String) (v : OutVal)
    (h : k ∈ keys r) : keys (dictInsert r k v) = keys r := by
  unfold dictInsert
  rw [if_pos h]
  unfold keys
  rw [List.map_map]
  refine List.map_congr_left ?_
  intro p _
  by_cases hp : p.1 = k
  · simp [Function.comp, hp]
  · simp [Function.comp, hp]

lemma keys_dictInsert_not_mem (r : Record) (k : String) (v : OutVal)
    (h : k ∉ keys r) : keys (dictInsert r k v) = keys r ++ [k] := by
  unfold dictInsert
  rw [if_neg h]
  unfold keys
  simp

lemma keys_foldl_dictInsert (dec : List Nat → Option String) :
    ∀ (ps : List (String × RawVal)) (acc : Record),
      (ps.map Prod.fst).Nodup → (∀ q ∈ ps, q.1 ∉ keys acc) →
      keys (ps.foldl (fun r p => dictInsert r p.1 (projectVal dec p.2)) acc)
        = keys acc ++ ps.map Prod.fst := by
  intro ps
  induction ps with
  | nil => intro acc _ _; simp
  | cons q ps ih =>
    intro acc hnd hdisj
    have hq : q.1 ∉ keys acc := hdisj q (List.mem_cons_self q ps)
    have hins := keys_dictInsert_not_mem acc q.1 (projectVal dec q.2) hq
    have hnd1 : (ps.map Prod.fst).Nodup := by
      rw [List.map_cons, List.nodup_cons] at hnd
      exact hnd.2
    have hfresh : q.1 ∉ ps.map Prod.fst := by
      rw [List.map_cons, List.nodup_cons] at hnd
      exact hnd.1
    have hdisj1 : ∀ r ∈ ps, r.1 ∉ keys (dictInsert acc q.1 (projectVal dec q.2)) := by
      intro r hr
      rw [hins]
      simp only [List.mem_append, List.mem_singleton]
      rintro (h | h)
      · exact hdisj r (List.mem_cons_of_mem _ hr) h
      · exact hfresh (h ▸ List.mem_map_of_mem Prod.fst hr)
    rw [List.foldl_cons, ih (dictInsert acc q.1 (projectVal dec q.2)) hnd1 hdisj1, hins]
    simp

lemma keys_mkLinha (dec : List Nat → Option String) (cols : List String)
    (row : List RawVal) (hnd : cols.Nodup) (hlen : row.length = cols.length) :
    keys (mkLinha dec cols row) = cols := by
  unfold mkLinha
  have hz : (cols.zip row).map Prod.fst = cols :=
    List.map_fst_zip cols row (le_of_eq hlen.symm)
  have hdisj : ∀ q ∈ cols.zip row, q.1 ∉ keys ([] : Record) := by
    intro q _
    simp [keys]
  rw [keys_foldl_dictInsert dec (cols.zip row) [] (hz.symm ▸ hnd) hdisj, hz]
  simp [keys]

/-- Trace of the handler body alone: either no event (rejection before the
query, or cursor-creation failure) or exactly the one execute event carrying
the scan query over the upper-cased, whitelisted name. -/
lemma listar_tabela_body_trace (dec : List Nat → Option String) (w : World)
    (n : String) :
    (listar_tabela_body dec w n).2 = []
    ∨ ((listar_tabela_body dec w n).2
          = [Ev.executeQuery ("SELECT * FROM " ++ pyUpper n)]
        ∧ pyUpper n ∈ tabelas_permitidas) := by
  obtain ⟨pool, acq, cur, exe, desc, rows⟩ := w
  unfold listar_tabela_body
  by_cases hn : pyUpper n ∉ tabelas_permitidas
  · left
    simp [hn]
  · rw [not_not] at hn
    cases cur with
    | error e => left; simp [hn]
    | ok u =>
        cases exe with
        | error e => right; exact ⟨by simp [hn], hn⟩
        | ok u => right; exact ⟨by simp [hn], hn⟩

/-- Inversion of the success case: a 200 response can only arise on the full
success path, and its body is the projection of the fetched rows over the
column list read from the description. -/
lemma listar_tabela_ok_inv (dec : List Nat → Option String) (w : World)
    (n : String) (ds : List Record)
    (h : (listar_tabela dec w n).1 = Response.ok ds) :
    ds = w.rows.map (mkLinha dec ((w.description).getD [])) := by
  obtain ⟨pool, acq, cur, exe, desc, rows⟩ := w
  unfold listar_tabela get_db_connection listar_tabela_body at h
  cases pool with
  | none => simp at h
  | some p =>
      cases acq with
      | error e => simp at h
      | ok c =>
          by_cases hn : pyUpper n ∉ tabelas_permitidas
          · simp [hn] at h
          · rw [not_not] at hn
            cases cur with
            | error e => simp [hn] at h
            | ok u =>
                cases exe with
                | error e => simp [hn] at h
                | ok u =>
                    simp [hn] at h
                    exact h.symm

/-! ### Claim theorems -/

/-- C1, counterexample: at the concrete request GS_FOO (not whitelisted,
pool up, acquire succeeding) the endpoint does answer 403, yet the trace
contains an acquire event: the dependency get_db_connection acquires a
connection before the handler body performs the whitelist check, so the
claim that no connection is ever acquired for such a request is false. -/
theorem C1_counterexample :
    pyUpper "GS_FOO" ∉ tabelas_permitidas
    ∧ (listar_tabela (fun _ => none)
        ⟨some poolConfig, Except.ok (), Except.ok (), Except.ok (), none, []⟩
        "GS_FOO").1 = Response.err 403 "Tabela não permitida"
    ∧ Ev.acquire ∈ (listar_tabela (fun _ => none)
        ⟨some poolConfig, Except.ok (), Except.ok (), Except.ok (), none, []⟩
        "GS_FOO").2 := by
  refine ⟨by decide, by decide, by decide⟩

/-- C1 (amended): for every request whose upper-cased table name is not in
the whitelist and whose dependency has successfully acquired a connection,
the endpoint returns Forbidden 403; the connection acquired by the
dependency before the check is released exactly once and no query is ever
executed (the trace is exactly acquire then release). -/
theorem C1_forbidden_no_query (dec : List Nat → Option String) (w : World)
    (n : String) (p : Pool)
    (hp : w.pool = some p) (ha : w.acquire = Except.ok ())
    (hn : pyUpper n ∉ tabelas_permitidas) :
    (listar_tabela dec w n).1 = Response.err 403 "Tabela não permitida"
    ∧ (listar_tabela dec w n).2 = [Ev.acquire, Ev.release] := by
  constructor <;>
    simp [listar_tabela, get_db_connection, listar_tabela_body, hp, ha, hn]

/-- Witness for C1: the amended theorem applied at the concrete request
GS_FOO against a healthy pool. -/
theorem C1_forbidden_no_query_witness :
    (⟨some poolConfig, Except.ok (), Except.ok (), Except.ok (), none, []⟩ : World).pool
        = some poolConfig
    ∧ (⟨some poolConfig, Except.ok (), Except.ok (), Except.ok (), none, []⟩ : World).acquire
        = Except.ok ()
    ∧ pyUpper "GS_FOO" ∉ tabelas_permitidas
    ∧ ((listar_tabela (fun _ => none)
          ⟨some poolConfig, Except.ok (), Except.ok (), Except.ok (), none, []⟩
          "GS_FOO").1 = Response.err 403 "Tabela não permitida"
        ∧ (listar_tabela (fun _ => none)
            ⟨some poolConfig, Except.ok (), Except.ok (), Except.ok (), none, []⟩
            "GS_FOO").2 = [Ev.acquire, Ev.release]) :=
  ⟨rfl, rfl, by decide,
    C1_forbidden_no_query (fun _ => none)
      ⟨some poolConfig, Except.ok (), Except.ok (), Except.ok (), none, []⟩
      "GS_FOO" poolConfig rfl rfl (by decide)⟩

/-- C2: on every request whose acquire succeeds, the trace contains exactly
one acquire event and exactly one release event, whatever exit path the
handler takes (success, Forbidden rejection, query failure or unexpected
error): the lease is never leaked and never double-released. -/
theorem C2_lease_released_exactly_once (dec : List Nat → Option String)
    (w : World) (n : String) (p : Pool)
    (hp : w.pool = some p) (ha : w.acquire = Except.ok ()) :
    ((listar_tabela dec w n).2).count Ev.acquire = 1
    ∧ ((listar_tabela dec w n).2).count Ev.release = 1 := by
  rcases listar_tabela_body_trace dec w n with hb | ⟨hb, _⟩ <;>
    simp [listar_tabela, get_db_connection, hp, ha, hb, List.count_cons,
      List.count_append]

/-- Witness for C2: the lease bookkeeping at a concrete successful request. -/
theorem C2_lease_released_exactly_once_witness :
    (⟨some poolConfig, Except.ok (), Except.ok (), Except.ok (), none, []⟩ : World).pool
        = some poolConfig
    ∧ (⟨some poolConfig, Except.ok (), Except.ok (), Except.ok (), none, []⟩ : World).acquire
        = Except.ok ()
    ∧ (((listar_tabela (fun _ => none)
          ⟨some poolConfig, Except.ok (), Except.ok (), Except.ok (), none, []⟩
          "gs_cidade").2).count Ev.acquire = 1
        ∧ ((listar_tabela (fun _ => none)
            ⟨some poolConfig, Except.ok (), Except.ok (), Except.ok (), none, []⟩
            "gs_cidade").2).count Ev.release = 1) :=
  ⟨rfl, rfl,
    C2_lease_released_exactly_once (fun _ => none)
      ⟨some poolConfig, Except.ok (), Except.ok (), Except.ok (), none, []⟩
      "gs_cidade" poolConfig rfl rfl⟩

/-- C3: whenever a request executes a query, the executed SQL text is
exactly the concatenation of SELECT * FROM and the upper-cased input name,
that upper-cased name is a member of the whitelist, and the whitelist is the
fixed five-element list of GS tables; matching is case-insensitive because
the name is upper-cased before the membership test. -/
theorem C3_executed_sql_whitelisted (dec : List Nat → Option String)
    (w : World) (n sql : String)
    (h : Ev.executeQuery sql ∈ (listar_tabela dec w n).2) :
    sql = "SELECT * FROM " ++ pyUpper n
    ∧ pyUpper n ∈ tabelas_permitidas
    ∧ tabelas_permitidas =
        ["GS_CIDADE", "GS_BAIRRO", "GS_PREVISAO_TEMPO",
         "GS_FAMILIARES_DESAPARECIDOS", "GS_NIVEL_ALERTA"] := by
  have hbody := listar_tabela_body_trace dec w n
  unfold listar_tabela get_db_connection at h
  cases hw : w.pool with
  | none => rw [hw] at h; simp at h
  | some p =>
      rw [hw] at h
      cases hacq : w.acquire with
      | error e => rw [hacq] at h; simp at h
      | ok c =>
          rw [hacq] at h
          simp only [] at h
          rcases hbody with hb | ⟨hb, hn⟩
          · rw [hb] at h
            simp at h
          · rw [hb] at h
            simp at h
            exact ⟨h, hn, rfl⟩

/-- Witness for C3: a concrete request for gs_cidade executes exactly the
scan query over GS_CIDADE. -/
theorem C3_executed_sql_whitelisted_witness :
    Ev.executeQuery "SELECT * FROM GS_CIDADE"
        ∈ (listar_tabela (fun _ => none)
            ⟨some poolConfig, Except.ok (), Except.ok (), Except.ok (), none, []⟩
            "gs_cidade").2
    ∧ ("SELECT * FROM GS_CIDADE" = "SELECT * FROM " ++ pyUpper "gs_cidade"
        ∧ pyUpper "gs_cidade" ∈ tabelas_permitidas
        ∧ tabelas_permitidas =
            ["GS_CIDADE", "GS_BAIRRO", "GS_PREVISAO_TEMPO",
             "GS_FAMILIARES_DESAPARECIDOS", "GS_NIVEL_ALERTA"]) :=
  ⟨by decide,
    C3_executed_sql_whitelisted (fun _ => none)
      ⟨some poolConfig, Except.ok (), Except.ok (), Except.ok (), none, []⟩
      "gs_cidade" "SELECT * FROM GS_CIDADE" (by decide)⟩

/-- C4: a failed pool initialization is caught and leaves db_pool at None
(observable unavailable state, no crash), and every request arriving while
the pool is None receives an HTTP 500 error mentioning the uninitialized
pool, performs no pool or query event at all, and in particular never
dereferences the absent pool. -/
theorem C4_pool_unavailable (dec : List Nat → Option String)
    (n m : String) (w : World) (hw : w.pool = none) :
    startup_db_pool (Except.error m) = none
    ∧ (listar_tabela dec w n).1 = Response.err 500
        "Erro interno ao conectar ao banco de dados: 500: Database connection pool not initialized."
    ∧ (listar_tabela dec w n).2 = [] := by
  refine ⟨rfl, ?_, ?_⟩ <;>
    simp [listar_tabela, get_db_connection, hw]

/-- Witness for C4: a concrete request against the uninitialized pool. -/
theorem C4_pool_unavailable_witness :
    (⟨none, Except.ok (), Except.ok (), Except.ok (), none, []⟩ : World).pool = none
    ∧ (startup_db_pool (Except.error "ORA-12154: TNS could not resolve") = none
        ∧ (listar_tabela (fun _ => none)
            ⟨none, Except.ok (), Except.ok (), Except.ok (), none, []⟩
            "gs_cidade").1 = Response.err 500
            "Erro interno ao conectar ao banco de dados: 500: Database connection pool not initialized."
        ∧ (listar_tabela (fun _ => none)
            ⟨none, Except.ok (), Except.ok (), Except.ok (), none, []⟩
            "gs_cidade").2 = []) :=
  ⟨rfl,
    C4_pool_unavailable (fun _ => none) "gs_cidade"
      "ORA-12154: TNS could not resolve"
      ⟨none, Except.ok (), Except.ok (), Except.ok (), none, []⟩ rfl⟩

/-- C5: evaluation at the failing input.  A whitelisted request
(GS_CIDADE) whose statement execution raises ORA-00942 answers with status
500, not the 400 the claim and the code itself intend: the inner except
clause raises HTTPException 400 with the table name in the detail, but that
raise happens inside the outer try, whose except Exception clause catches
the HTTPException and re-raises it wrapped into a 500.  The table name
still appears in the wrapped detail. -/
theorem C5_query_failure_wrapped_into_500 :
    listar_tabela (fun _ => none)
        ⟨some poolConfig, Except.ok (), Except.ok (),
         Except.error "ORA-00942: table or view does not exist", some ["ID"], []⟩
        "GS_CIDADE" =
      (Response.err 500
        "Erro interno no servidor: 400: Erro ao acessar dados da tabela GS_CIDADE: ORA-00942: table or view does not exist",
       [Ev.acquire, Ev.executeQuery "SELECT * FROM GS_CIDADE", Ev.release]) := by
  decide

/-- C6: projection of one large-object column.  A SQL NULL projects to
null; a text LOB projects to its string; binary LOB content that the
utf-8 decoder accepts projects to the decoded string; binary content the
decoder rejects is retained as raw bytes, a value distinct from null; a
failing LOB read degrades the value to null; and the row projection is
total, emitting exactly one record per fetched row whatever the cell
values are — a single column never fails the whole result. -/
theorem C6_lob_projection (dec : List Nat → Option String)
    (bs bsB : List Nat) (s t m : String) (cols : List String)
    (rows : List (List RawVal))
    (hsome : dec bs = some s) (hnone : dec bsB = none) :
    projectVal dec RawVal.vnull = OutVal.vnull
    ∧ projectVal dec (RawVal.lob (LobRead.text t)) = OutVal.vstr t
    ∧ projectVal dec (RawVal.lob (LobRead.bin bs)) = OutVal.vstr s
    ∧ projectVal dec (RawVal.lob (LobRead.bin bsB)) = OutVal.vbytes bsB
    ∧ OutVal.vbytes bsB ≠ OutVal.vnull
    ∧ projectVal dec (RawVal.lob (LobRead.fails m)) = OutVal.vnull
    ∧ (rows.map (mkLinha dec cols)).length = rows.length := by
  refine ⟨rfl, rfl, ?_, ?_, by simp, rfl, by simp⟩
  · simp [projectVal, hsome]
  · simp [projectVal, hnone]

/-- Witness for C6: a concrete decoder accepting the byte 65 and rejecting
the byte 255, applied over a row whose LOB read fails. -/
theorem C6_lob_projection_witness :
    (fun bs : List Nat => if bs = [65] then some "A" else none) [65] = some "A"
    ∧ (fun bs : List Nat => if bs = [65] then some "A" else none) [255] = none
    ∧ (projectVal (fun bs => if bs = [65] then some "A" else none) RawVal.vnull
          = OutVal.vnull
        ∧ projectVal (fun bs => if bs = [65] then some "A" else none)
            (RawVal.lob (LobRead.text "oi")) = OutVal.vstr "oi"
        ∧ projectVal (fun bs => if bs = [65] then some "A" else none)
            (RawVal.lob (LobRead.bin [65])) = OutVal.vstr "A"
        ∧ projectVal (fun bs => if bs = [65] then some "A" else none)
            (RawVal.lob (LobRead.bin [255])) = OutVal.vbytes [255]
        ∧ OutVal.vbytes [255] ≠ OutVal.vnull
        ∧ projectVal (fun bs => if bs = [65] then some "A" else none)
            (RawVal.lob (LobRead.fails "io error")) = OutVal.vnull
        ∧ (([[RawVal.lob (LobRead.fails "io error")]]
              : List (List RawVal)).map
              (mkLinha (fun bs => if bs = [65] then some "A" else none) ["C"])).length
            = ([[RawVal.lob (LobRead.fails "io error")]] : List (List RawVal)).length) :=
  ⟨rfl, rfl,
    C6_lob_projection (fun bs => if bs = [65] then some "A" else none)
      [65] [255] "A" "oi" "io error" ["C"]
      [[RawVal.lob (LobRead.fails "io error")]] rfl rfl⟩

/-- C7: on the full success path with a present column description whose
labels are distinct and rows of matching width, the response body is the
row-by-row projection of the fetched rows (one record per row, in fetch
order), and every emitted record carries exactly the column list read from
the description, in the reported column order. -/
theorem C7_records_match_description (dec : List Nat → Option String)
    (w : World) (n : String) (p : Pool) (cols : List String)
    (hp : w.pool = some p) (ha : w.acquire = Except.ok ())
    (hn : pyUpper n ∈ tabelas_permitidas)
    (hc : w.cursor = Except.ok ()) (he : w.exec = Except.ok ())
    (hd : w.description = some cols) (hnd : cols.Nodup)
    (hlen : ∀ r ∈ w.rows, r.length = cols.length) :
    (listar_tabela dec w n).1 = Response.ok (w.rows.map (mkLinha dec cols))
    ∧ (w.rows.map (mkLinha dec cols)).length = w.rows.length
    ∧ ∀ rec ∈ w.rows.map (mkLinha dec cols), keys rec = cols := by
  refine ⟨?_, by simp, ?_⟩
  · simp [listar_tabela, get_db_connection, listar_tabela_body,
      hp, ha, hn, hc, he, hd]
  · intro rec hrec
    obtain ⟨row, hrow, rfl⟩ := List.mem_map.mp hrec
    exact keys_mkLinha dec cols row hnd (hlen row hrow)

/-- Witness for C7: a concrete successful request over two columns. -/
theorem C7_records_match_description_witness :
    (⟨some poolConfig, Except.ok (), Except.ok (), Except.ok (),
        some ["ID", "NOME"],
        [[RawVal.plain (Prim.pint 1), RawVal.plain (Prim.pstr "SP")]]⟩
      : World).pool = some poolConfig
    ∧ pyUpper "gs_cidade" ∈ tabelas_permitidas
    ∧ (["ID", "NOME"] : List String).Nodup
    ∧ (∀ r ∈ (⟨some poolConfig, Except.ok (), Except.ok (), Except.ok (),
          some ["ID", "NOME"],
          [[RawVal.plain (Prim.pint 1), RawVal.plain (Prim.pstr "SP")]]⟩
        : World).rows, r.length = (["ID", "NOME"] : List String).length)
    ∧ ((listar_tabela (fun _ => none)
          ⟨some poolConfig, Except.ok (), Except.ok (), Except.ok (),
            some ["ID", "NOME"],
            [[RawVal.plain (Prim.pint 1), RawVal.plain (Prim.pstr "SP")]]⟩
          "gs_cidade").1
        = Response.ok
            (([[RawVal.plain (Prim.pint 1), RawVal.plain (Prim.pstr "SP")]]
                : List (List RawVal)).map
              (mkLinha (fun _ => none) ["ID", "NOME"]))
      ∧ (([[RawVal.plain (Prim.pint 1), RawVal.plain (Prim.pstr "SP")]]
            : List (List RawVal)).map
            (mkLinha (fun _ => none) ["ID", "NOME"])).length
          = ([[RawVal.plain (Prim.pint 1), RawVal.plain (Prim.pstr "SP")]]
              : List (List RawVal)).length
      ∧ ∀ rec ∈ ([[RawVal.plain (Prim.pint 1), RawVal.plain (Prim.pstr "SP")]]
            : List (List RawVal)).map
            (mkLinha (fun _ => none) ["ID", "NOME"]),
          keys rec = ["ID", "NOME"]) :=
  ⟨rfl, by decide, by decide, by decide,
    C7_records_match_description (fun _ => none)
      ⟨some poolConfig, Except.ok (), Except.ok (), Except.ok (),
        some ["ID", "NOME"],
        [[RawVal.plain (Prim.pint 1), RawVal.plain (Prim.pstr "SP")]]⟩
      "gs_cidade" poolConfig ["ID", "NOME"]
      rfl rfl (by decide) rfl rfl rfl (by decide) (by decide)⟩

/-- C8: the row-to-record projection is a deterministic function of the
reported column description and the fetched rows: two successful responses
obtained against the same column description carry records with identical
key lists, whatever the row data of each request. -/
theorem C8_same_description_same_keys (dec : List Nat → Option String)
    (w1 w2 : World) (n : String) (cols : List String)
    (ds1 ds2 : List Record)
    (h1 : (listar_tabela dec w1 n).1 = Response.ok ds1)
    (h2 : (listar_tabela dec w2 n).1 = Response.ok ds2)
    (hd1 : w1.description = some cols) (hd2 : w2.description = some cols)
    (hnd : cols.Nodup)
    (hl1 : ∀ r ∈ w1.rows, r.length = cols.length)
    (hl2 : ∀ r ∈ w2.rows, r.length = cols.length) :
    ∀ r1 ∈ ds1, ∀ r2 ∈ ds2, keys r1 = keys r2 := by
  intro r1 hr1 r2 hr2
  rw [listar_tabela_ok_inv dec w1 n ds1 h1] at hr1
  rw [listar_tabela_ok_inv dec w2 n ds2 h2] at hr2
  simp only [hd1, Option.getD_some] at hr1
  simp only [hd2, Option.getD_some] at hr2
  obtain ⟨row1, hrow1, rfl⟩ := List.mem_map.mp hr1
  obtain ⟨row2, hrow2, rfl⟩ := List.mem_map.mp hr2
  rw [keys_mkLinha dec cols row1 hnd (hl1 row1 hrow1),
    keys_mkLinha dec cols row2 hnd (hl2 row2 hrow2)]

/-- Witness for C8: two concrete requests over the same one-column
description but different row data produce records with the same keys. -/
theorem C8_same_description_same_keys_witness :
    (listar_tabela (fun _ => none)
        ⟨some poolConfig, Except.ok (), Except.ok (), Except.ok (),
          some ["ID"], [[RawVal.plain (Prim.pint 1)]]⟩
        "gs_bairro").1
      = Response.ok [[("ID", OutVal.vplain (Prim.pint 1))]]
    ∧ (listar_tabela (fun _ => none)
        ⟨some poolConfig, Except.ok (), Except.ok (), Except.ok (),
          some ["ID"], [[RawVal.plain (Prim.pint 2)]]⟩
        "gs_bairro").1
      = Response.ok [[("ID", OutVal.vplain (Prim.pint 2))]]
    ∧ ∀ r1 ∈ ([[("ID", OutVal.vplain (Prim.pint 1))]] : List Record),
        ∀ r2 ∈ ([[("ID", OutVal.vplain (Prim.pint 2))]] : List Record),
          keys r1 = keys r2 :=
  ⟨by decide, by decide,
    C8_same_description_same_keys (fun _ => none)
      ⟨some poolConfig, Except.ok (), Except.ok (), Except.ok (),
        some ["ID"], [[RawVal.plain (Prim.pint 1)]]⟩
      ⟨some poolConfig, Except.ok (), Except.ok (), Except.ok (),
        some ["ID"], [[RawVal.plain (Prim.pint 2)]]⟩
      "gs_bairro" ["ID"]
      [[("ID", OutVal.vplain (Prim.pint 1))]]
      [[("ID", OutVal.vplain (Prim.pint 2))]]
      (by decide) (by decide) rfl rfl (by decide) (by decide) (by decide)⟩

/-- C10: when the column description is absent (None, or an empty column
list, both falsy in the source), a successful request still answers 200
with one record per fetched row, but every record is the empty dict: all
row values are dropped because each record pairs the empty column list
with the row. -/
theorem C10_empty_description_drops_values (dec : List Nat → Option String)
    (w : World) (n : String) (p : Pool)
    (hp : w.pool = some p) (ha : w.acquire = Except.ok ())
    (hn : pyUpper n ∈ tabelas_permitidas)
    (hc : w.cursor = Except.ok ()) (he : w.exec = Except.ok ())
    (hd : w.description = none ∨ w.description = some []) :
    (listar_tabela dec w n).1
      = Response.ok (w.rows.map (fun _ => ([] : Record)))
    ∧ (w.rows.map (fun _ => ([] : Record))).length = w.rows.length := by
  have hmk : w.rows.map (mkLinha dec []) = w.rows.map (fun _ => ([] : Record)) :=
    List.map_congr_left (fun row _ => rfl)
  refine ⟨?_, by simp⟩
  rcases hd with hd | hd <;>
    simp [listar_tabela, get_db_connection, listar_tabela_body,
      hp, ha, hn, hc, he, hd, ← hmk]

/-- Witness for C10: a concrete request whose description is absent while a
one-cell row is fetched answers with one empty record. -/
theorem C10_empty_description_drops_values_witness :
    (⟨some poolConfig, Except.ok (), Except.ok (), Except.ok (), none,
        [[RawVal.plain (Prim.pint 7)]]⟩ : World).description = none
    ∧ pyUpper "gs_nivel_alerta" ∈ tabelas_permitidas
    ∧ ((listar_tabela (fun _ => none)
          ⟨some poolConfig, Except.ok (), Except.ok (), Except.ok (), none,
            [[RawVal.plain (Prim.pint 7)]]⟩
          "gs_nivel_alerta").1
        = Response.ok
            (([[RawVal.plain (Prim.pint 7)]] : List (List RawVal)).map
              (fun _ => ([] : Record)))
      ∧ (([[RawVal.plain (Prim.pint 7)]] : List (List RawVal)).map
            (fun _ => ([] : Record))).length
          = ([[RawVal.plain (Prim.pint 7)]] : List (List RawVal)).length) :=
  ⟨rfl, by decide,
    C10_empty_description_drops_values (fun _ => none)
      ⟨some poolConfig, Except.ok (), Except.ok (), Except.ok (), none,
        [[RawVal.plain (Prim.pint 7)]]⟩
      "gs_nivel_alerta" poolConfig rfl rfl (by decide) rfl rfl (Or.inl rfl)⟩

end DrennaAPI
